import Mathlib

/-!
Shallow embedding of the uv-tui core (asynchronous command execution and
reactive state synchronisation) and proofs of its specified properties.

The definitions below are translated from the repository sources:
`uv_tui/uv_executor.py`, `uv_tui/app.py`, `uv_tui/widgets.py`,
`uv_tui/models.py`.  String-processing helpers mirror the Python string
methods the source calls (`rstrip`, `strip`, `lower`, `split`,
`splitlines`, `startswith`), implemented structurally over `List Char`.
-/

namespace UvTui

/-- Boolean whitespace test matching Python's notion closely enough for the
ASCII text the tool processes (space, tab, CR, LF). -/
def isWs (c : Char) : Bool :=
  c = ' ' || c = '\t' || c = '\r' || c = '\n'

/-- Model of Python `str.rstrip()` on the character list: drop trailing
whitespace. -/
def rstripChars (cs : List Char) : List Char :=
  ((cs.reverse).dropWhile isWs).reverse

/-- Model of Python `str.strip()`: drop leading and trailing whitespace. -/
def stripChars (cs : List Char) : List Char :=
  ((cs.dropWhile isWs).reverse.dropWhile isWs).reverse

/-- Model of Python `str.lower()` (ASCII-level, which is all the parser
compares against). -/
def lowerChars (cs : List Char) : List Char :=
  cs.map Char.toLower

/-- Does `cs` start with the pattern `pat`?  Model of Python
`str.startswith`. -/
def startsWithChars : List Char → List Char → Bool
  | _, [] => true
  | [], _ :: _ => false
  | c :: cs, d :: ds => c = d && startsWithChars cs ds

/-- Model of Python `str.split()` with no argument: split on runs of
whitespace, producing no empty tokens.  The accumulator holds the current
token reversed. -/
def splitWsAux : List Char → List Char → List String
  | [], acc => if acc.isEmpty then [] else [String.mk acc.reverse]
  | c :: cs, acc =>
    if isWs c then
      if acc.isEmpty then splitWsAux cs []
      else String.mk acc.reverse :: splitWsAux cs []
    else splitWsAux cs (c :: acc)

/-- Python `line.split()`. -/
def pySplitWs (s : String) : List String :=
  splitWsAux s.data []

/-- Model of Python `str.splitlines()` restricted to `\n` line breaks (the
subprocess text the source feeds it): a final fragment is emitted only when
non-empty. -/
def splitLinesAux : List Char → List Char → List String
  | [], acc => if acc.isEmpty then [] else [String.mk acc.reverse]
  | c :: cs, acc =>
    if c = '\n' then String.mk acc.reverse :: splitLinesAux cs []
    else splitLinesAux cs (c :: acc)

/-- Python `text.splitlines()`. -/
def pySplitlines (s : String) : List String :=
  splitLinesAux s.data []

/-- Python `s.strip()` as a `String → String` map. -/
def pyStrip (s : String) : String :=
  String.mk (stripChars s.data)

/-- Python `s.rstrip()` as a `String → String` map. -/
def pyRstrip (s : String) : String :=
  String.mk (rstripChars s.data)

/-- Python `"\n".join(lines)`. -/
def joinLines (lines : List String) : String :=
  String.intercalate "\n" lines

/-- `models.Dependency`: one row reported by `uv pip list`. -/
structure Dependency where
  name : String
  version : String
deriving DecidableEq, Repr

/-- `models.CommandResult`: the outcome of one subprocess invocation. -/
structure CommandResult where
  success : Bool
  stdout : String
  stderr : String
  return_code : Int
deriving DecidableEq, Repr

/-- `uv pip list` row parser body (`uv_executor.py` lines 257-260): split a
line on whitespace and keep the first two tokens as name and version;
lines with fewer than two tokens contribute nothing. -/
def parsePipLine (line : String) : Option Dependency :=
  match pySplitWs line with
  | p :: v :: _ => some { name := p, version := v }
  | _ => none

/-- Is every character of the (stripped) line a dash or a space?  Models
`set(lines[1].strip()) <= set("- ")` in `list_dependencies`. -/
def isDashSpaceLine (s : String) : Bool :=
  s.data.all (fun c => c = '-' || c = ' ')

/-- The header-skipping logic of `list_dependencies` (`uv_executor.py`
lines 250-255): after dropping blank lines, skip a first line starting
with "package" (case-insensitive) and, when present, a following
separator line made of dashes and spaces. -/
def pipListStartIdx (lines : List String) : Nat :=
  match lines with
  | [] => 0
  | first :: rest =>
    if startsWithChars (lowerChars first.data) "package".data then
      match rest with
      | second :: _ => if isDashSpaceLine (pyStrip second) then 2 else 1
      | [] => 1
    else 0

/-- Parsing core of `UVCommandExecutor.list_dependencies` (`uv_executor.py`
lines 247-262): drop blank lines, skip the header (and optional dash/space
separator), then turn each remaining line with at least two whitespace
tokens into a `Dependency`. -/
def parsePipList (text : String) : List Dependency :=
  let lines := (pySplitlines text).filter (fun ln => pyStrip ln ≠ "")
  (lines.drop (pipListStartIdx lines)).filterMap parsePipLine

/-- The per-line processing applied by `_stream_process.read_stream`
(`uv_executor.py` line 41): each raw line is decoded and `rstrip`ped
before being buffered and delivered to the callback.  Decoding is the
identity at this level of abstraction (lines are modelled as text). -/
def processLine (raw : String) : String :=
  pyRstrip raw

/-- Observable behaviour of one spawned process once launched: its exit
code as exposed by `process.returncode` after `wait()` (an `Option` to
mirror the Python attribute's typing) and the raw lines carried by each
output stream. -/
structure ProcRun where
  returncode : Option Int
  rawStdout : List String
  rawStderr : List String
deriving DecidableEq, Repr

/-- Python `process.returncode or 0` (`uv_executor.py` line 58): a falsy
returncode (`None` or `0`) collapses to `0`. -/
def pyOrZero : Option Int → Int
  | none => 0
  | some r => if r = 0 then 0 else r

/-- Result construction of `UVCommandExecutor._stream_process`
(`uv_executor.py` lines 54-59): buffers hold the processed lines of each
stream in arrival order, `success` is `returncode == 0`, and stdout/stderr
text is the newline-join of the respective buffer. -/
def streamProcess (p : ProcRun) : CommandResult :=
  { success := p.returncode = some 0
    stdout := joinLines (p.rawStdout.map processLine)
    stderr := joinLines (p.rawStderr.map processLine)
    return_code := pyOrZero p.returncode }

/-- Launch failure: `asyncio.create_subprocess_exec` raising
`FileNotFoundError` because the executable cannot be found or spawned
(`uv_executor.py` lines 77-85 and the analogous call sites).  The
top-level launcher reports this as "tool not found". -/
inductive LaunchError where
  | toolNotFound
deriving DecidableEq, Repr

/-- One executor invocation (e.g. `UVCommandExecutor.init`): either the
spawn call raises a launch error before any `CommandResult` exists, or the
process runs and `_stream_process` builds the result. -/
def invoke (launch : Except LaunchError ProcRun) : Except LaunchError CommandResult :=
  match launch with
  | .error e => .error e
  | .ok p => .ok (streamProcess p)

/-- `UVCommandExecutor.list_dependencies` (`uv_executor.py` lines
234-262): when the project's `.venv` directory is missing, return the
empty list immediately; otherwise spawn `uv pip list` and parse its
stdout.  The second component records whether a subprocess was spawned. -/
def list_dependencies (venvExists : Bool) (pipListStdout : String) :
    List Dependency × Bool :=
  if venvExists = false then ([], false)
  else (parsePipList pipListStdout, true)

/-- One callback event of `read_stream` (`uv_executor.py` lines 38-46):
the stream the line came from (`stream_name`) and the processed line
content used for both the buffer and the callback text. -/
structure LogEvent where
  streamName : String
  line : String
deriving DecidableEq, Repr

/-- The rendered callback argument `f"[\x7bstream_name\x7d] \x7bdecoded_line\x7d"`. -/
def renderEvent (e : LogEvent) : String :=
  "[" ++ e.streamName ++ "] " ++ e.line

/-- The possible callback sequences produced by
`asyncio.gather(read_stream(stdout), read_stream(stderr))`
(`uv_executor.py` lines 48-50) under cooperative scheduling: each
`read_stream` loop appends its next buffered line and fires the callback
in stream order, and the scheduler may interleave the two loops
arbitrarily.  `Interleaves cs os es` states that the callback sequence
`cs` is such an interleaving of the stdout buffer `os` and the stderr
buffer `es`. -/
inductive Interleaves : List LogEvent → List String → List String → Prop
  | nil : Interleaves [] [] []
  | out (l : String) {cs : List LogEvent} {os es : List String} :
      Interleaves cs os es → Interleaves ({ streamName := "stdout", line := l } :: cs) (l :: os) es
  | err (l : String) {cs : List LogEvent} {os es : List String} :
      Interleaves cs os es → Interleaves ({ streamName := "stderr", line := l } :: cs) os (l :: es)

/-- The stdout-tagged lines of a callback sequence, in invocation order
(the branch `if stream_name == "stdout"` of `read_stream`). -/
def stdoutEvents (cs : List LogEvent) : List String :=
  cs.filterMap (fun e => if e.streamName = "stdout" then some e.line else none)

/-- The stderr-tagged lines of a callback sequence, in invocation order
(the `else` branch of the dispatch in `read_stream`). -/
def stderrEvents (cs : List LogEvent) : List String :=
  cs.filterMap (fun e => if e.streamName = "stdout" then none else some e.line)

theorem interleaves_projections {cs : List LogEvent} {os es : List String}
    (h : Interleaves cs os es) : stdoutEvents cs = os ∧ stderrEvents cs = es := by
  induction h with
  | nil => exact ⟨rfl, rfl⟩
  | out l h ih =>
    refine ⟨?_, ?_⟩
    · simpa [stdoutEvents] using ih.1
    · simpa [stderrEvents] using ih.2
  | err l h ih =>
    refine ⟨?_, ?_⟩
    · simpa [stdoutEvents] using ih.1
    · simpa [stderrEvents] using ih.2

/-- The long-running operations the application defines (`app.py`,
`widgets.py`).  Each corresponds to one `async def ..._worker` method of
`UvTuiApp`. -/
inductive OpName where
  | createProject
  | addDependency
  | activateAndOpen
  | deleteProject
  | archiveProject
  | syncEnv
  | removeDependency
  | runCommand
deriving DecidableEq, Repr

/-- The scheduler group each worker is submitted under, read off the
decorators in `app.py`: `create_project_worker`, `add_dependency_worker`
and `activate_and_open_worker` carry `@work(exclusive=True,
group="uv_commands")`; `delete_project_worker` and
`archive_project_worker` carry `@work(exclusive=True,
group="filesystem")`; `sync_worker`, `remove_dependency_worker` and
`run_command_worker` carry no decorator at all, so they are never
submitted to the worker scheduler (their call sites in `widgets.py`
invoke them without `await`, producing an unscheduled coroutine). -/
def workerGroup : OpName → Option String
  | .createProject => some "uv_commands"
  | .addDependency => some "uv_commands"
  | .activateAndOpen => some "uv_commands"
  | .deleteProject => some "filesystem"
  | .archiveProject => some "filesystem"
  | .syncEnv => none
  | .removeDependency => none
  | .runCommand => none

/-- Do two operations land in the same concrete scheduler group? -/
def sameGroup (a b : OpName) : Bool :=
  match workerGroup a, workerGroup b with
  | some g, some h => g = h
  | _, _ => false

/-- A scheduled worker instance: a fresh id and its operation. -/
structure Worker where
  id : Nat
  op : OpName
deriving DecidableEq, Repr

/-- State of the exclusive work scheduler.  `running` are in-flight
workers; `completedOps` lists (most recent first) the operations whose
terminal effects have been applied; `cancelledIds` the workers cancelled
by a later same-group submission. -/
structure SchedState where
  running : List Worker
  completedOps : List OpName
  cancelledIds : List Nat
  nextId : Nat
deriving DecidableEq, Repr

/-- The empty scheduler. -/
def initSched : SchedState :=
  { running := [], completedOps := [], cancelledIds := [], nextId := 0 }

/-- Modelled from the spec: submission semantics of the framework's
exclusive worker machinery (`@work(exclusive=True, group=...)`), which
lives outside this repository.  Spec section 4.3: "if `Running` for that
group, the in-flight operation is cancelled ... and the new operation
transitions the group to `Running`".  An operation whose method carries no
`@work` decorator is not submitted to any group; at its call sites the
coroutine is created without `await`, so nothing is scheduled and the
state is unchanged. -/
def submit (op : OpName) (st : SchedState) : SchedState :=
  match workerGroup op with
  | some _ =>
    { running := { id := st.nextId, op := op } :: st.running.filter (fun w => !sameGroup w.op op)
      completedOps := st.completedOps
      cancelledIds := (st.running.filter (fun w => sameGroup w.op op)).map Worker.id ++ st.cancelledIds
      nextId := st.nextId + 1 }
  | none => st

/-- Natural completion of the running worker `wid`: it leaves the running
set and its terminal effects are applied (spec section 4.3: "On natural
completion the group returns to `Idle` and any side effects ... are
applied").  A cancelled worker is no longer in `running`, so finishing it
is a no-op and its effects never land. -/
def finish (wid : Nat) (st : SchedState) : SchedState :=
  match st.running.find? (fun w => w.id = wid) with
  | some w =>
    { st with
        running := st.running.filter (fun v => v.id ≠ wid)
        completedOps := w.op :: st.completedOps }
  | none => st

/-- Drain the scheduler: let every still-running worker run to natural
completion, oldest first. -/
def drain (st : SchedState) : SchedState :=
  (st.running.reverse.map Worker.id).foldl (fun s i => finish i s) st

/-- Does the successful completion of this operation refresh the
dependency table?  `add_dependency_worker`, `remove_dependency_worker`
and `sync_worker` call `detail_view.update_dependencies_table()` on
success (`app.py` lines 435, 466, 495). -/
def refreshesDepTable : OpName → Bool
  | .addDependency => true
  | .removeDependency => true
  | .syncEnv => true
  | _ => false

/-- How many completed operations refreshed the dependency table. -/
def depTableRefreshCount (st : SchedState) : Nat :=
  (st.completedOps.filter refreshesDepTable).length

/-- `models.Project`: metadata of one discovered project.  `path` is the
directory path (the identity key); `dependencies` is the cached resolved
list; `last_modified` is the manifest's mtime (an abstract timestamp). -/
structure Project where
  name : String
  path : String
  description : String
  version : String
  status : String
  python_version : String
  dependencies : List Dependency
  last_modified : Option Nat
  primary_dependencies : List String
deriving DecidableEq, Repr

/-- The fields `scan_projects` reads from a successfully parsed
`pyproject.toml` `[project]` table (`app.py` lines 104-114): each is
optional in the file. -/
structure Manifest where
  requiresPython : Option String
  description : Option String
  version : Option String
  dependencies : Option (List String)
deriving DecidableEq, Repr

/-- One immediate child of the projects root as `scan_projects` observes
it (`app.py` lines 91-123): its directory name, whether it is a directory,
whether it contains `pyproject.toml` and `.venv`, the manifest contents
(`none` models an unreadable or malformed file, i.e. `TOMLDecodeError` or
`FileNotFoundError` under the `try`), and the manifest's mtime (`none`
models an `OSError` from `stat`). -/
structure DirEntry where
  name : String
  isDir : Bool
  hasPyproject : Bool
  hasVenv : Bool
  manifest : Option Manifest
  mtime : Option Nat
deriving DecidableEq, Repr

/-- Python `project_cfg.get("description") or ""` (`app.py` line 106): a
missing or falsy (empty) value collapses to the empty string. -/
def descOrEmpty : Option String → String
  | none => ""
  | some d => if d = "" then "" else d

/-- The per-entry body of `scan_projects` (`app.py` lines 91-136): only
directories containing `pyproject.toml` become projects; defaults apply
field-wise; a manifest that fails to load downgrades the status to
"Invalid pyproject.toml" while keeping the defaults, and the mtime is only
read when parsing succeeded. -/
def buildProject (root : String) (e : DirEntry) : Option Project :=
  if e.isDir && e.hasPyproject then
    match e.manifest with
    | none =>
      some
        { name := e.name
          path := root ++ "/" ++ e.name
          description := ""
          version := "0.1.0"
          status := "Invalid pyproject.toml"
          python_version := "N/A"
          dependencies := []
          last_modified := none
          primary_dependencies := [] }
    | some m =>
      some
        { name := e.name
          path := root ++ "/" ++ e.name
          description := descOrEmpty m.description
          version := m.version.getD "0.1.0"
          status := if e.hasVenv then "Venv OK" else "Venv Missing"
          python_version := m.requiresPython.getD "N/A"
          dependencies := []
          last_modified := e.mtime
          primary_dependencies := m.dependencies.getD [] }
  else none

/-- The sort key relation of `sorted(found_projects, key=lambda p:
p.name)` (`app.py` line 137). -/
def byNameLe (p q : Project) : Prop :=
  p.name ≤ q.name

/-- Strict version of the name ordering, used to compare snapshots. -/
def byNameLt (p q : Project) : Prop :=
  p.name < q.name

instance : DecidableRel byNameLe :=
  fun p q => inferInstanceAs (Decidable (p.name ≤ q.name))

instance : IsTotal Project byNameLe :=
  ⟨fun p q => le_total p.name q.name⟩

instance : IsTrans Project byNameLe :=
  ⟨fun _ _ _ h₁ h₂ => le_trans h₁ h₂⟩

instance : IsAntisymm Project byNameLt :=
  ⟨fun _ _ h₁ h₂ => absurd h₂ (lt_asymm h₁)⟩

/-- `UvTuiApp.scan_projects` (`app.py` lines 76-137): build a project
record for every qualifying immediate child of the root, then publish the
list sorted by name (Python's `sorted` is a stable sort; with the
pairwise-distinct directory names of one parent directory any stable sort
yields the same list, so a stable insertion sort models it). -/
def scan_projects (root : String) (entries : List DirEntry) : List Project :=
  List.insertionSort byNameLe (entries.filterMap (buildProject root))

/-- The selection-relevant state of the main view: the rows of the
project `ListView`, the selected project's identity (its path, which is
what `_select_project_in_list` matches on, `app.py` lines 285-306), and
the project surfaced in the detail panel. -/
structure ViewState where
  listRows : List Project
  selectedPath : Option String
  detail : Option Project
deriving DecidableEq, Repr

/-- `UvTuiApp.watch_projects` (`app.py` lines 139-176), fired on every
registry snapshot change: clear the list view, append a row per project,
then — regardless of any previous selection — select the first project of
the new snapshot and surface its detail, or clear selection and detail
when the snapshot is empty. -/
def watch_projects (newProjects : List Project) (_st : ViewState) : ViewState :=
  match newProjects with
  | [] => { listRows := [], selectedPath := none, detail := none }
  | p :: _ => { listRows := newProjects, selectedPath := some p.path, detail := some p }

/-- State touched by `ProjectDetailView.update_dependencies_table`
(`widgets.py` lines 367-392).  Project objects are compared by Python
`is` identity there, so live objects are keyed by an abstract id:
`selected` is the id of `self.project` (if any), `tableRows` the rows of
the dependencies `DataTable`, and `projectDeps` the `dependencies` cache
field of each live project object. -/
structure DetailState where
  selected : Option Nat
  tableRows : List Dependency
  projectDeps : List (Nat × List Dependency)
deriving DecidableEq, Repr

/-- Update one project object's `dependencies` cache field. -/
def setDeps (pid : Nat) (deps : List Dependency) :
    List (Nat × List Dependency) → List (Nat × List Dependency) :=
  List.map (fun kv => if kv.1 = pid then (pid, deps) else kv)

/-- The synchronous head of `update_dependencies_table` (`widgets.py`
lines 373-382), run before the refresh suspends: capture
`current_project = self.project`; bail out when nothing is selected or the
table widget is absent; otherwise clear the table.  Returns the new state
and the captured identity. -/
def updateDepsStart (st : DetailState) : DetailState × Option Nat :=
  match st.selected with
  | none => (st, none)
  | some pid => ({ st with tableRows := [] }, some pid)

/-- The resumption of `update_dependencies_table` after
`list_dependencies` returns (`widgets.py` lines 385-392): if
`self.project is not current_project` the result is discarded with no
state change; otherwise the captured project's `dependencies` cache is
overwritten and the rows are added to the table. -/
def updateDepsArrival (captured : Nat) (deps : List Dependency)
    (st : DetailState) : DetailState :=
  if st.selected = some captured then
    { st with tableRows := deps, projectDeps := setDeps captured deps st.projectDeps }
  else st

/-- The filesystem as the archival worker observes it: existing project
directory trees and existing (archive) files, by path. -/
structure FS where
  dirs : List String
  files : List String
deriving DecidableEq, Repr

/-- `shutil.make_archive(str(archive_path), "zip", project.path)`
(`app.py` line 640): creates the file `archive_path + ".zip"`. -/
def make_archive_step (archivePath : String) (fs : FS) : FS :=
  { fs with files := (archivePath ++ ".zip") :: fs.files }

/-- `shutil.rmtree(project.path)` (`app.py` line 641): removes the
project's directory tree. -/
def rmtree_step (projectPath : String) (fs : FS) : FS :=
  { fs with dirs := fs.dirs.filter (fun d => d ≠ projectPath) }

/-- `UvTuiApp.archive_project_worker` (`app.py` lines 625-646) on its
success path: ensure `root/_archived` exists, zip the project directory to
`root/_archived/<name>.zip`, then delete the original tree — two separate
filesystem operations.  Returns the final filesystem and the archive
path. -/
def archive_project_worker (root name projectPath : String) (fs : FS) :
    FS × String :=
  let archivePath := root ++ "/_archived" ++ "/" ++ name
  (rmtree_step projectPath (make_archive_step archivePath fs), archivePath ++ ".zip")

/-- Concrete fixture: a healthy project named alpha. -/
def cexAlpha : Project :=
  { name := "alpha"
    path := "/r/alpha"
    description := ""
    version := "0.1.0"
    status := "Venv OK"
    python_version := "N/A"
    dependencies := []
    last_modified := none
    primary_dependencies := [] }

/-- Concrete fixture: a healthy project named beta. -/
def cexBeta : Project :=
  { name := "beta"
    path := "/r/beta"
    description := ""
    version := "0.1.0"
    status := "Venv OK"
    python_version := "N/A"
    dependencies := []
    last_modified := none
    primary_dependencies := [] }

/-- Concrete fixture: a directory entry whose manifest fails to parse. -/
def badManifestEntry : DirEntry :=
  { name := "demo"
    isDir := true
    hasPyproject := true
    hasVenv := false
    manifest := none
    mtime := none }

/-- Concrete fixture: a directory entry with a healthy manifest. -/
def goodManifestEntry : DirEntry :=
  { name := "alpha"
    isDir := true
    hasPyproject := true
    hasVenv := true
    manifest := some { requiresPython := some ">=3.11", description := some "d",
                       version := some "1.0.0", dependencies := some ["rich"] }
    mtime := some 7 }

theorem buildProject_name (root : String) (e : DirEntry) (p : Project)
    (h : buildProject root e = some p) : p.name = e.name := by
  unfold buildProject at h
  split at h
  · cases hm : e.manifest with
    | none =>
      rw [hm] at h
      injection h with h
      subst h
      rfl
    | some m =>
      rw [hm] at h
      injection h with h
      subst h
      rfl
  · exact absurd h (by simp)

theorem filterMap_names_sublist (root : String) :
    ∀ entries : List DirEntry,
      ((entries.filterMap (buildProject root)).map Project.name).Sublist
        (entries.map DirEntry.name)
  | [] => by simp
  | e :: es => by
    cases h : buildProject root e with
    | none =>
      simpa [List.filterMap_cons, h] using
        (filterMap_names_sublist root es).trans (List.sublist_cons_self _ _)
    | some p =>
      simpa [List.filterMap_cons, h, buildProject_name root e p h] using
        List.Sublist.cons₂ e.name (filterMap_names_sublist root es)

end UvTui

namespace UvTui

/-- C1: if operation B is submitted to a group while operation A is still
running in that group, A is cancelled and its terminal effects never
apply; in particular submitting "sync" twice in quick succession yields
exactly one dependency-table refresh.  The code contradicts this:
`sync_worker` carries no `@work(exclusive=True, group="uv_commands")`
decorator and is invoked without `await` (widgets.py line 458), so the
second sync submission cancels nothing, no worker is ever scheduled, and
the two submissions produce zero dependency-table refreshes, not exactly
one. -/
theorem c1_sync_twice_refresh_count :
    workerGroup OpName.syncEnv = none ∧
    submit OpName.syncEnv (submit OpName.syncEnv initSched) = initSched ∧
    depTableRefreshCount (drain (submit OpName.syncEnv (submit OpName.syncEnv initSched))) = 0 := by
  decide

/-- C2: a streamed invocation's `CommandResult` has `success = true` iff
the process exit code is exactly `0`, and the stored `return_code` is that
exit code; an invocation whose spawn call raises a launch error yields no
`CommandResult` at all, hence never a success outcome. -/
theorem c2_success_iff_exit_zero :
    (∀ (p : ProcRun) (code : Int), p.returncode = some code →
        (((streamProcess p).success = true ↔ code = 0) ∧
          (streamProcess p).return_code = code)) ∧
    (∀ (e : LaunchError) (r : CommandResult), invoke (Except.error e) ≠ Except.ok r) := by
  constructor
  · intro p code h
    constructor
    · simp [streamProcess, h]
    · simp [streamProcess, h, pyOrZero]
      intro hc
      simp [hc]
  · intro e r
    simp [invoke]

/-- Witness for C2 at a concrete run with exit code 2 and a concrete
launch failure. -/
theorem c2_success_iff_exit_zero_witness :
    ((((streamProcess { returncode := some 2, rawStdout := [], rawStderr := [] }).success = true
        ↔ (2 : Int) = 0) ∧
      (streamProcess { returncode := some 2, rawStdout := [], rawStderr := [] }).return_code = 2)) ∧
    invoke (Except.error LaunchError.toolNotFound)
        ≠ Except.ok { success := true, stdout := "", stderr := "", return_code := 0 } :=
  ⟨c2_success_iff_exit_zero.1 { returncode := some 2, rawStdout := [], rawStderr := [] } 2 rfl,
   c2_success_iff_exit_zero.2 LaunchError.toolNotFound
     { success := true, stdout := "", stderr := "", return_code := 0 }⟩

/-- C3: for every interleaved callback sequence a streamed process can
produce, the lines tagged stdout, in callback-invocation order, are
exactly the process's stdout lines (after the per-line processing the
reader applies), and likewise for stderr; only the cross-stream
interleaving varies. -/
theorem c3_per_stream_order (cs : List LogEvent) (rawOut rawErr : List String)
    (h : Interleaves cs (rawOut.map processLine) (rawErr.map processLine)) :
    stdoutEvents cs = rawOut.map processLine ∧ stderrEvents cs = rawErr.map processLine :=
  interleaves_projections h

/-- Witness for C3 on a two-line interleaving. -/
theorem c3_per_stream_order_witness :
    stdoutEvents [{ streamName := "stdout", line := "a" }, { streamName := "stderr", line := "b" }]
        = ["a"].map processLine ∧
    stderrEvents [{ streamName := "stdout", line := "a" }, { streamName := "stderr", line := "b" }]
        = ["b"].map processLine := by
  refine c3_per_stream_order _ ["a"] ["b"] ?_
  have h1 : (["a"] : List String).map processLine = ["a"] := by decide
  have h2 : (["b"] : List String).map processLine = ["b"] := by decide
  rw [h1, h2]
  exact Interleaves.out "a" (Interleaves.err "b" Interleaves.nil)

/-- C4 counterexample: the previously selected project beta still exists
(by path) in the new snapshot, yet `watch_projects` moves the selection to
the first entry alpha instead of keeping beta selected. -/
theorem c4_counterexample :
    cexBeta.path ∈ ([cexAlpha, cexBeta].map Project.path) ∧
    (watch_projects [cexAlpha, cexBeta]
        { listRows := [cexAlpha, cexBeta], selectedPath := some cexBeta.path,
          detail := some cexBeta }).selectedPath = some cexAlpha.path ∧
    cexAlpha.path ≠ cexBeta.path := by
  decide

/-- C4 amended: whenever the registry snapshot changes, the previous
selection is ignored — the first entry of the new snapshot (if any)
becomes selected with its detail surfaced, and an empty snapshot clears
both selection and detail; a previously selected project therefore stays
selected only when it is the first entry of the new snapshot. -/
theorem c4_selection_resets_to_first (ps : List Project) (st : ViewState) :
    (watch_projects ps st).selectedPath = ps.head?.map Project.path ∧
    (watch_projects ps st).detail = ps.head? ∧
    (watch_projects ps st).listRows = ps := by
  cases ps <;> simp [watch_projects]

/-- C5: a dependency-listing refresh that started while `captured` was the
selected project and whose result arrives after the selection has changed
is discarded: the arrival step leaves the state — display table and cached
dependency lists alike — unchanged. -/
theorem c5_stale_result_discarded (st₀ st₁ st₂ : DetailState) (captured : Nat)
    (deps : List Dependency)
    (_hstart : updateDepsStart st₀ = (st₁, some captured))
    (hchanged : st₂.selected ≠ some captured) :
    updateDepsArrival captured deps st₂ = st₂ := by
  simp [updateDepsArrival, hchanged]

/-- Witness for C5: the refresh starts with project 0 selected and its
result arrives after the selection moved to project 1. -/
theorem c5_stale_result_discarded_witness :
    updateDepsArrival 0 [{ name := "rich", version := "13.0" }]
        { selected := some 1, tableRows := [], projectDeps := [(0, []), (1, [])] }
      = { selected := some 1, tableRows := [], projectDeps := [(0, []), (1, [])] } :=
  c5_stale_result_discarded
    { selected := some 0, tableRows := [], projectDeps := [(0, []), (1, [])] }
    { selected := some 0, tableRows := [], projectDeps := [(0, []), (1, [])] }
    { selected := some 1, tableRows := [], projectDeps := [(0, []), (1, [])] }
    0 [{ name := "rich", version := "13.0" }] (by decide) (by decide)

/-- C6: on an unchanged directory tree (same entries, possibly enumerated
in a different order) two rescans publish element-wise equal, identically
ordered snapshots, and each snapshot is sorted by project name. -/
theorem c6_rescan_idempotent_sorted (root : String) (e₁ e₂ : List DirEntry)
    (hnodup : (e₁.map DirEntry.name).Nodup) (hperm : e₁.Perm e₂) :
    scan_projects root e₁ = scan_projects root e₂ ∧
    List.Sorted byNameLe (scan_projects root e₁) := by
  have hl : (e₁.filterMap (buildProject root)).Perm (e₂.filterMap (buildProject root)) :=
    hperm.filterMap _
  have hs₁ : List.Sorted byNameLe (scan_projects root e₁) :=
    List.sorted_insertionSort byNameLe _
  have hs₂ : List.Sorted byNameLe (scan_projects root e₂) :=
    List.sorted_insertionSort byNameLe _
  have hsp : (scan_projects root e₁).Perm (scan_projects root e₂) :=
    ((List.perm_insertionSort byNameLe _).trans hl).trans
      (List.perm_insertionSort byNameLe _).symm
  have hn₁ : ((e₁.filterMap (buildProject root)).map Project.name).Nodup :=
    (filterMap_names_sublist root e₁).nodup hnodup
  have hns : ((scan_projects root e₁).map Project.name).Nodup :=
    (((List.perm_insertionSort byNameLe _).map Project.name).nodup_iff).mpr hn₁
  have hne₁ : (scan_projects root e₁).Pairwise (fun a b => a.name ≠ b.name) :=
    List.pairwise_map.mp hns
  have hlt₁ : List.Sorted byNameLt (scan_projects root e₁) :=
    (hs₁.and hne₁).imp (fun h => lt_of_le_of_ne h.1 h.2)
  have hns₂ : ((scan_projects root e₂).map Project.name).Nodup :=
    ((hsp.map Project.name).nodup_iff).mp hns
  have hne₂ : (scan_projects root e₂).Pairwise (fun a b => a.name ≠ b.name) :=
    List.pairwise_map.mp hns₂
  have hlt₂ : List.Sorted byNameLt (scan_projects root e₂) :=
    (hs₂.and hne₂).imp (fun h => lt_of_le_of_ne h.1 h.2)
  exact ⟨List.eq_of_perm_of_sorted hsp hlt₁ hlt₂, hs₁⟩

/-- Witness for C6 on a two-entry root enumerated in two different
orders. -/
theorem c6_rescan_idempotent_sorted_witness :
    scan_projects "/r" [badManifestEntry, goodManifestEntry]
        = scan_projects "/r" [goodManifestEntry, badManifestEntry] ∧
    List.Sorted byNameLe (scan_projects "/r" [badManifestEntry, goodManifestEntry]) :=
  c6_rescan_idempotent_sorted "/r" [badManifestEntry, goodManifestEntry]
    [goodManifestEntry, badManifestEntry] (by decide)
    (List.Perm.swap goodManifestEntry badManifestEntry [])

/-- C7: the dependency-listing parser skips the header row and an optional
dash/space separator row, splits each remaining non-blank line on
whitespace into a (name, version) pair, and ignores lines with fewer than
two tokens; on the spec's example input it yields exactly
[(foo, 1.0.0), (bar, 2.1.3)]. -/
theorem c7_pip_list_parsing :
    parsePipList "Package Version\n------- -------\nfoo 1.0.0\nbar 2.1.3"
        = [{ name := "foo", version := "1.0.0" }, { name := "bar", version := "2.1.3" }] ∧
    parsePipList "Package Version\nfoo 1.0.0\nbaz\n" = [{ name := "foo", version := "1.0.0" }] ∧
    (∀ line : String, (pySplitWs line).length < 2 → parsePipLine line = none) ∧
    (∀ (line p v : String) (rest : List String),
        pySplitWs line = p :: v :: rest →
          parsePipLine line = some { name := p, version := v }) := by
  refine ⟨by decide, by decide, ?_, ?_⟩
  · intro line h
    cases hs : pySplitWs line with
    | nil => simp [parsePipLine, hs]
    | cons p t =>
      cases t with
      | nil => simp [parsePipLine, hs]
      | cons v rest =>
        rw [hs] at h
        simp at h
        omega
  · intro line p v rest hs
    simp [parsePipLine, hs]

/-- Witness for C7's conditional clauses at concrete lines. -/
theorem c7_pip_list_parsing_witness :
    parsePipLine "baz" = none ∧
    parsePipLine "foo 1.0.0" = some { name := "foo", version := "1.0.0" } :=
  ⟨c7_pip_list_parsing.2.2.1 "baz" (by decide),
   c7_pip_list_parsing.2.2.2 "foo 1.0.0" "foo" "1.0.0" [] (by decide)⟩

/-- C8: an immediate subdirectory of the root holding a recognized
manifest whose contents are unreadable or malformed is still listed by the
rescan, with the degraded status "Invalid pyproject.toml", rather than
omitted; one broken manifest never aborts discovery. -/
theorem c8_degraded_manifest_still_listed (root : String) (entries : List DirEntry)
    (e : DirEntry) (hmem : e ∈ entries) (hdir : e.isDir = true)
    (hpy : e.hasPyproject = true) (hbad : e.manifest = none) :
    ∃ p ∈ scan_projects root entries,
      p.name = e.name ∧ p.status = "Invalid pyproject.toml" := by
  have hbuild : buildProject root e
      = some
        { name := e.name, path := root ++ "/" ++ e.name, description := "",
          version := "0.1.0", status := "Invalid pyproject.toml",
          python_version := "N/A", dependencies := [], last_modified := none,
          primary_dependencies := [] } := by
    simp [buildProject, hdir, hpy, hbad]
  refine ⟨{ name := e.name, path := root ++ "/" ++ e.name, description := "",
            version := "0.1.0", status := "Invalid pyproject.toml",
            python_version := "N/A", dependencies := [], last_modified := none,
            primary_dependencies := [] }, ?_, rfl, rfl⟩
  exact (List.mem_insertionSort byNameLe).mpr
    (List.mem_filterMap.mpr ⟨e, hmem, hbuild⟩)

/-- Witness for C8 on a one-entry root whose only manifest is broken. -/
theorem c8_degraded_manifest_still_listed_witness :
    ∃ p ∈ scan_projects "/r" [badManifestEntry],
      p.name = badManifestEntry.name ∧ p.status = "Invalid pyproject.toml" :=
  c8_degraded_manifest_still_listed "/r" [badManifestEntry] badManifestEntry
    (by decide) rfl rfl rfl

/-- C9: archiving the project demo yields the archive path
/projects/_archived/demo.zip (ending in _archived/demo.zip under the
projects root), afterwards the original demo directory no longer exists,
and the worker is literally the composition of two separate filesystem
steps — after the zip step alone the archive file already exists while the
directory set is untouched. -/
theorem c9_archive_demo (fs : FS) :
    (archive_project_worker "/projects" "demo" "/projects/demo" fs).2
        = "/projects/_archived/demo.zip" ∧
    "/projects/demo" ∉ (archive_project_worker "/projects" "demo" "/projects/demo" fs).1.dirs ∧
    (archive_project_worker "/projects" "demo" "/projects/demo" fs).1
        = rmtree_step "/projects/demo" (make_archive_step "/projects/_archived/demo" fs) ∧
    "/projects/_archived/demo.zip" ∈ (make_archive_step "/projects/_archived/demo" fs).files ∧
    (make_archive_step "/projects/_archived/demo" fs).dirs = fs.dirs := by
  refine ⟨rfl, ?_, rfl, by simp [make_archive_step], rfl⟩
  simp [archive_project_worker, rmtree_step, make_archive_step, List.mem_filter]

/-- C10: when the project's .venv subdirectory does not exist, the
dependency-listing operation returns the empty list and spawns no
subprocess, whatever output a spawned tool would have produced. -/
theorem c10_no_venv_empty_no_spawn (pipListStdout : String) :
    list_dependencies false pipListStdout = ([], false) :=
  rfl

end UvTui
